import Mathlib

/-!
Verification of the persistence contract of `src/main.py`, a FastAPI CRUD
service over three SQLite tables (`users`, `products`, `orders`).

Modelling conventions (shallow embedding of the data-model / gateway layer;
HTTP framing and serialization plumbing are out of scope per the spec):

* Each table is a `List` of row structures; the whole store is `DB`.
* SQLite assigns the id of an inserted row as one more than the largest id
  currently in the table (the schema uses plain `INTEGER PRIMARY KEY`
  without `AUTOINCREMENT`): `nextId`.
* `datetime` timestamps are abstract instants modelled as `Nat`; the
  handler-local calls to `datetime.utcnow()` within one request are
  modelled as the single call time `now` passed to the handler.
* `price` (a Python float that is only stored and echoed, never computed
  with) is modelled as `Int`.
* In `create_user` the insert call passes `password` twice — once inside
  `**user.dict()` and once as an explicit keyword — which raises
  `TypeError` at the call site, before any query is built or executed;
  every call to the endpoint therefore fails with a server error and the
  users table is never written. The `UNIQUE` constraint declared on
  `users.email` is unreachable through this handler.
* The `databases` driver compiles statements itself and never applies
  Python-side `Column(default=...)` values: a column omitted from the
  insert is stored as NULL. `create_order` supplies `order_date`
  explicitly (the workaround this driver requires) but omits `status`,
  so the stored status is NULL; nullable text is `Option String`.
* `response_model` filtering is modelled as field projection: `read_user`
  selects the whole row but the `User` response model exposes only
  `id`, `first_name`, `last_name`, `email` (no `password`). Response
  serialization failures (the pydantic `Order` model declares
  `status: str`, which a NULL stored status would violate on read) are
  framing plumbing out of scope; `read_order` returns the selected row.
* In `delete_order` the driver result of `execute` on a DELETE statement is
  an integer, never `None`, so the `None` check is modelled as a match on
  an `Option` that is always `some`.
-/

namespace Shop

/-- Request body of `POST /users/` (pydantic `UserCreate`). -/
structure UserCreate where
  first_name : String
  last_name : String
  email : String
  password : String
deriving DecidableEq, Repr

/-- Response model `User`: the public fields plus the id, no password. -/
structure User where
  id : Nat
  first_name : String
  last_name : String
  email : String
deriving DecidableEq, Repr

/-- A row of the `users` table (`UserModel`). -/
structure UserRow where
  id : Nat
  first_name : String
  last_name : String
  email : String
  password : String
deriving DecidableEq, Repr

/-- Request body of `POST /products/` (pydantic `ProductCreate`). -/
structure ProductCreate where
  name : String
  description : String
  price : Int
deriving DecidableEq, Repr

/-- Response model `Product`. -/
structure Product where
  id : Nat
  name : String
  description : String
  price : Int
deriving DecidableEq, Repr

/-- A row of the `products` table (`ProductModel`). -/
structure ProductRow where
  id : Nat
  name : String
  description : String
  price : Int
deriving DecidableEq, Repr

/-- Request body of `POST /orders/` and `PUT /orders/{id}`
(pydantic `OrderCreate`): only the two references. -/
structure OrderCreate where
  user_id : Nat
  product_id : Nat
deriving DecidableEq, Repr

/-- Response payload shaped like the `Order` model: all five columns.
`status` is nullable here because the stored column is; the pydantic
declaration `status: str` would reject a NULL on serialization, which is
framing plumbing outside this model. -/
structure Order where
  id : Nat
  user_id : Nat
  product_id : Nat
  order_date : Nat
  status : Option String
deriving DecidableEq, Repr

/-- A row of the `orders` table (`OrderModel`). The `status` column is
nullable: its Python-side `Column` default is never applied by the
`databases` driver, so an insert omitting it stores NULL. -/
structure OrderRow where
  id : Nat
  user_id : Nat
  product_id : Nat
  order_date : Nat
  status : Option String
deriving DecidableEq, Repr

/-- Errors surfaced to the caller: `HTTPException(404, detail)` and an
uncaught Python `TypeError` propagating as a server error. The `UNIQUE`
constraint violation of the schema never surfaces: the only handler that
could trigger it fails before reaching the database. -/
inductive ApiError where
  | notFound (detail : String)
  | typeError (detail : String)
deriving DecidableEq, Repr

/-- The relational store: one list per table. -/
structure DB where
  users : List UserRow
  products : List ProductRow
  orders : List OrderRow
deriving DecidableEq, Repr

/-- The store right after `Base.metadata.create_all`: three empty tables. -/
def DB.empty : DB := ⟨[], [], []⟩

/-- SQLite rowid assignment for an `INTEGER PRIMARY KEY` column without
`AUTOINCREMENT`: one more than the largest id currently in the table. -/
def nextId (ids : List Nat) : Nat := ids.foldr max 0 + 1

/-- The `response_model=User` projection of a stored row: drops `password`. -/
def userRowToUser (r : UserRow) : User :=
  ⟨r.id, r.first_name, r.last_name, r.email⟩

/-- The `response_model=Product` projection of a stored row. -/
def productRowToProduct (r : ProductRow) : Product :=
  ⟨r.id, r.name, r.description, r.price⟩

/-- The `response_model=Order` projection of a stored row. -/
def orderRowToOrder (r : OrderRow) : Order :=
  ⟨r.id, r.user_id, r.product_id, r.order_date, r.status⟩

set_option linter.unusedVariables false in
/-- Handler of `POST /users/` (`create_user`): the insert call spells
`values(**user.dict(), password=user.password)`, and `user.dict()` already
contains `password`, so Python raises `TypeError` at the call site on
every request — before any query is built or executed. The handler never
inserts, never returns a user, and leaves the store untouched. -/
def create_user (db : DB) (user : UserCreate) : Except ApiError User × DB :=
  (Except.error (ApiError.typeError
    "values() got multiple values for keyword argument password"), db)

/-- Handler of `GET /users/{user_id}` (`read_user`): selects the row with that id;
`None` raises `HTTPException(404, "User not found")`. -/
def read_user (db : DB) (user_id : Nat) : Except ApiError User :=
  match db.users.find? (fun r => r.id == user_id) with
  | none => Except.error (ApiError.notFound "User not found")
  | some r => Except.ok (userRowToUser r)

/-- Handler of `POST /products/` (`create_product`): inserts the row, echoes
the input with the new id. -/
def create_product (db : DB) (product : ProductCreate) : Product × DB :=
  let last_record_id := nextId (db.products.map (fun r => r.id))
  let row : ProductRow :=
    ⟨last_record_id, product.name, product.description, product.price⟩
  (⟨last_record_id, product.name, product.description, product.price⟩,
    { db with products := db.products ++ [row] })

/-- Handler of `GET /products/{product_id}` (`read_product`). -/
def read_product (db : DB) (product_id : Nat) : Except ApiError Product :=
  match db.products.find? (fun r => r.id == product_id) with
  | none => Except.error (ApiError.notFound "Product not found")
  | some r => Except.ok (productRowToProduct r)

/-- Handler of `POST /orders/` (`create_order`): the insert supplies
`order_date=datetime.utcnow()` explicitly and omits `status`; the
`databases` driver never applies the Python-side column default, so the
stored status is NULL. Only the response object is stamped with
`status = "Pending"` and a second `utcnow()`. Both `utcnow()` calls of
the handler are this request's call time `now`. -/
def create_order (db : DB) (order : OrderCreate) (now : Nat) : Order × DB :=
  let last_record_id := nextId (db.orders.map (fun r => r.id))
  let row : OrderRow :=
    ⟨last_record_id, order.user_id, order.product_id, now, none⟩
  (⟨last_record_id, order.user_id, order.product_id, now, some "Pending"⟩,
    { db with orders := db.orders ++ [row] })

/-- Handler of `GET /orders/{order_id}` (`read_order`). -/
def read_order (db : DB) (order_id : Nat) : Except ApiError Order :=
  match db.orders.find? (fun r => r.id == order_id) with
  | none => Except.error (ApiError.notFound "Order not found")
  | some r => Except.ok (orderRowToOrder r)

/-- Row-level effect of the UPDATE statement of `update_order`: rewrite the
`user_id` and `product_id` columns of a row whose id matches, leave any
other row alone. -/
def applyOrderUpdate (updated_order : OrderCreate) (order_id : Nat)
    (r : OrderRow) : OrderRow :=
  if r.id == order_id then
    { r with user_id := updated_order.user_id,
             product_id := updated_order.product_id }
  else r

/-- Handler of `PUT /orders/{order_id}` (`update_order`): an UPDATE of the `user_id`
and `product_id` columns of every row whose id matches (a no-op when none
does; the handler never checks), then the input echoed with the path id.
There is no failure path. -/
def update_order (db : DB) (order_id : Nat) (updated_order : OrderCreate) :
    (Nat × OrderCreate) × DB :=
  let orders := db.orders.map (applyOrderUpdate updated_order order_id)
  ((order_id, updated_order), { db with orders := orders })

/-- Handler of `DELETE /orders/{order_id}` (`delete_order`): a DELETE of every row
whose id matches; the driver result of `execute` is the affected-row count,
never `None`, so the `404` branch is unreachable. -/
def delete_order (db : DB) (order_id : Nat) : Except ApiError Nat × DB :=
  let remaining := db.orders.filter (fun r => r.id != order_id)
  let deleted_order : Option Nat := some (db.orders.length - remaining.length)
  match deleted_order with
  | none => (Except.error (ApiError.notFound "Order not found"), db)
  | some n => (Except.ok n, { db with orders := remaining })

/-- Every member of a list of naturals is bounded by the running maximum. -/
theorem mem_le_foldr_max {l : List Nat} {x : Nat} (h : x ∈ l) : x ≤ l.foldr max 0 := by
  induction l with
  | nil => cases h
  | cons a t ih =>
    simp only [List.foldr_cons]
    rcases List.mem_cons.1 h with h | h
    · exact h ▸ Nat.le_max_left _ _
    · exact Nat.le_trans (ih h) (Nat.le_max_right _ _)

/-- The id assigned to an inserted row is strictly larger than every id
currently in the table. -/
theorem lt_nextId {l : List Nat} {x : Nat} (h : x ∈ l) : x < nextId l :=
  Nat.lt_succ_of_le (mem_le_foldr_max h)

/-- Appending a strictly larger element keeps a list of ids duplicate-free. -/
theorem nodup_append_gt {l : List Nat} {n : Nat} (hl : l.Nodup)
    (hn : ∀ x ∈ l, x < n) : (l ++ [n]).Nodup := by
  rw [List.nodup_append]
  refine ⟨hl, List.nodup_singleton n, ?_⟩
  intro x hx hx1
  rcases List.mem_singleton.1 hx1 with rfl
  exact absurd rfl (Nat.ne_of_lt (hn x hx))

/-- C1: evaluation of `create_order` at every input, exhibiting the bug.
The response carries `status = "Pending"` and `order_date` equal to the
call time, and the caller controls only `user_id` and `product_id`; but
the row written to the store has status NULL — the insert omits `status`
and the driver does not apply the schema's `default="Pending"` — so the
stored half of the claim fails even though the schema declares it. -/
theorem c1_create_order_status_bug (db : DB) (oc : OrderCreate) (now : Nat) :
    (create_order db oc now).1.status = some "Pending" ∧
    (create_order db oc now).1.order_date = now ∧
    (create_order db oc now).1.user_id = oc.user_id ∧
    (create_order db oc now).1.product_id = oc.product_id ∧
    (create_order db oc now).2.users = db.users ∧
    (create_order db oc now).2.products = db.products ∧
    (create_order db oc now).2.orders = db.orders ++
      [⟨(create_order db oc now).1.id, oc.user_id, oc.product_id, now, none⟩] := by
  refine ⟨rfl, rfl, rfl, rfl, rfl, rfl, rfl⟩

/-- C2: evaluation of two consecutive `create_user` calls at every input,
exhibiting the bug. Both calls — in particular the second one, whatever
its email — fail with the `TypeError` raised by the duplicated `password`
keyword, not with a constraint violation, and the users table (indeed the
whole store) is never written by either call. -/
theorem c2_create_user_type_error_pair (db : DB) (u1 u2 : UserCreate) :
    (create_user (create_user db u1).2 u2).1 =
      Except.error (ApiError.typeError
        "values() got multiple values for keyword argument password") ∧
    (create_user (create_user db u1).2 u2).2 = db := ⟨rfl, rfl⟩

/-- C3: reading a user, product or order by an id no stored row of the
respective table carries fails with the entity-specific 404 error. -/
theorem c3_read_missing_is_404 (db : DB) (i : Nat)
    (hu : ∀ r ∈ db.users, r.id ≠ i)
    (hp : ∀ r ∈ db.products, r.id ≠ i)
    (ho : ∀ r ∈ db.orders, r.id ≠ i) :
    read_user db i = Except.error (ApiError.notFound "User not found") ∧
    read_product db i = Except.error (ApiError.notFound "Product not found") ∧
    read_order db i = Except.error (ApiError.notFound "Order not found") := by
  have h1 : db.users.find? (fun r => r.id == i) = none :=
    List.find?_eq_none.2 (fun r hr => by simp [hu r hr])
  have h2 : db.products.find? (fun r => r.id == i) = none :=
    List.find?_eq_none.2 (fun r hr => by simp [hp r hr])
  have h3 : db.orders.find? (fun r => r.id == i) = none :=
    List.find?_eq_none.2 (fun r hr => by simp [ho r hr])
  refine ⟨?_, ?_, ?_⟩
  · unfold read_user; rw [h1]
  · unfold read_product; rw [h2]
  · unfold read_order; rw [h3]

/-- C3 witness: id 2 is absent from a store holding one row with id 1 in
each table. -/
theorem c3_read_missing_is_404_witness :
    read_user ⟨[⟨1, "A", "B", "a@b.com", "x"⟩], [⟨1, "W", "d", 9⟩],
        [⟨1, 1, 1, 3, none⟩]⟩ 2 =
      Except.error (ApiError.notFound "User not found") ∧
    read_product ⟨[⟨1, "A", "B", "a@b.com", "x"⟩], [⟨1, "W", "d", 9⟩],
        [⟨1, 1, 1, 3, none⟩]⟩ 2 =
      Except.error (ApiError.notFound "Product not found") ∧
    read_order ⟨[⟨1, "A", "B", "a@b.com", "x"⟩], [⟨1, "W", "d", 9⟩],
        [⟨1, 1, 1, 3, none⟩]⟩ 2 =
      Except.error (ApiError.notFound "Order not found") :=
  c3_read_missing_is_404 _ 2 (by decide) (by decide) (by decide)

/-- C4 counterexample: on the empty store no order with id 1 exists
(reading it is a 404), yet `update_order 1` returns normally, echoing the
input stamped with id 1, instead of signalling NotFound. -/
theorem c4_update_missing_counterexample :
    read_order DB.empty 1 = Except.error (ApiError.notFound "Order not found") ∧
    update_order DB.empty 1 ⟨1, 1⟩ = ((1, ⟨1, 1⟩), DB.empty) := ⟨rfl, rfl⟩

/-- C4 amended: `update_order` has no NotFound path at all; when no row
with the given id exists it returns the echoed input and leaves the store
untouched. -/
theorem c4_update_missing_succeeds (db : DB) (i : Nat) (oc : OrderCreate)
    (h : ∀ r ∈ db.orders, r.id ≠ i) :
    update_order db i oc = ((i, oc), db) := by
  have hm : db.orders.map (applyOrderUpdate oc i) = db.orders.map id := by
    apply List.map_congr_left
    intro r hr
    simp [applyOrderUpdate, h r hr]
  simp only [update_order]
  rw [hm, List.map_id]

/-- C4 witness at a concrete store with one unrelated order. -/
theorem c4_update_missing_succeeds_witness :
    update_order (create_order DB.empty ⟨1, 1⟩ 3).2 7 ⟨5, 6⟩ =
      ((7, ⟨5, 6⟩), (create_order DB.empty ⟨1, 1⟩ 3).2) :=
  c4_update_missing_succeeds _ 7 ⟨5, 6⟩ (by decide)

/-- C5 counterexample: on the empty store no order with id 2 exists
(reading it is a 404), yet `delete_order 2` returns success with an
affected-row count of 0 instead of signalling NotFound. -/
theorem c5_delete_missing_counterexample :
    read_order DB.empty 2 = Except.error (ApiError.notFound "Order not found") ∧
    delete_order DB.empty 2 = (Except.ok 0, DB.empty) := ⟨rfl, rfl⟩

/-- C5 amended: `delete_order` always removes every row with the given id,
so a subsequent `read_order` fails with the 404 error; but it returns
success on every input, existing row or not, because the driver result it
compares against `None` is never `None`. -/
theorem c5_delete_then_read_404 (db : DB) (i : Nat) :
    (delete_order db i).1 =
      Except.ok (db.orders.length - (delete_order db i).2.orders.length) ∧
    read_order (delete_order db i).2 i =
      Except.error (ApiError.notFound "Order not found") := by
  constructor
  · rfl
  · have hfind : ((delete_order db i).2.orders).find? (fun r => r.id == i) = none := by
      apply List.find?_eq_none.2
      intro r hr
      have : r ∈ db.orders.filter (fun x => x.id != i) := hr
      have hne := (List.mem_filter.1 this).2
      simp only [bne_iff_ne, ne_eq, decide_eq_true_eq] at hne
      simp [hne]
    unfold read_order
    rw [hfind]

/-- Updating a row never changes its id. -/
theorem applyOrderUpdate_id (oc : OrderCreate) (i : Nat) (r : OrderRow) :
    (applyOrderUpdate oc i r).id = r.id := by
  unfold applyOrderUpdate
  by_cases hx : r.id == i <;> simp [hx]

/-- Applying the same UPDATE twice to a row is the same as applying it once. -/
theorem applyOrderUpdate_idem (oc : OrderCreate) (i : Nat) (r : OrderRow) :
    applyOrderUpdate oc i (applyOrderUpdate oc i r) = applyOrderUpdate oc i r := by
  unfold applyOrderUpdate
  by_cases hx : r.id == i <;> simp [hx]

/-- C6: when a row with the requested id is stored, `update_order` followed
by `read_order` returns the supplied `user_id` and `product_id` merged with
the original id (with `order_date` and `status` carried over from the
stored row), and applying the same update twice leaves the same stored
state as applying it once. -/
theorem c6_update_read_and_idempotent (db : DB) (i : Nat) (oc : OrderCreate)
    (r : OrderRow) (h : db.orders.find? (fun x => x.id == i) = some r) :
    read_order (update_order db i oc).2 i =
      Except.ok ⟨i, oc.user_id, oc.product_id, r.order_date, r.status⟩ ∧
    (update_order (update_order db i oc).2 i oc).2 = (update_order db i oc).2 := by
  have hri : (r.id == i) = true := by simpa using List.find?_some h
  have hrid : r.id = i := by simpa using hri
  constructor
  · have hupd : (update_order db i oc).2.orders =
        db.orders.map (applyOrderUpdate oc i) := rfl
    have hpf : ((fun x : OrderRow => x.id == i) ∘ applyOrderUpdate oc i) =
        fun x : OrderRow => x.id == i := by
      funext x
      simp only [Function.comp_apply, applyOrderUpdate_id]
    unfold read_order
    rw [hupd, List.find?_map, hpf, h]
    simp [applyOrderUpdate, hri, orderRowToOrder, hrid]
  · have horders : (update_order (update_order db i oc).2 i oc).2.orders =
        (update_order db i oc).2.orders := by
      show ((db.orders.map (applyOrderUpdate oc i)).map (applyOrderUpdate oc i)) =
        db.orders.map (applyOrderUpdate oc i)
      rw [List.map_map]
      exact List.map_congr_left (fun x _ => applyOrderUpdate_idem oc i x)
    show ({ (update_order db i oc).2 with
        orders := (update_order (update_order db i oc).2 i oc).2.orders } : DB) =
      (update_order db i oc).2
    rw [horders]

/-- C6 witness at a store holding one order. -/
theorem c6_update_read_and_idempotent_witness :
    read_order (update_order (create_order DB.empty ⟨5, 6⟩ 10).2 1 ⟨7, 8⟩).2 1 =
      Except.ok ⟨1, 7, 8, 10, none⟩ ∧
    (update_order (update_order (create_order DB.empty ⟨5, 6⟩ 10).2 1 ⟨7, 8⟩).2 1 ⟨7, 8⟩).2 =
      (update_order (create_order DB.empty ⟨5, 6⟩ 10).2 1 ⟨7, 8⟩).2 :=
  c6_update_read_and_idempotent _ 1 ⟨7, 8⟩ ⟨1, 5, 6, 10, none⟩ rfl

/-- C7: evaluation of `create_user` at every input, exhibiting the bug.
The call never succeeds — whatever the store and the submitted fields, it
fails with the `TypeError` raised by the duplicated `password` keyword
and leaves the store untouched, so no id is ever returned to round-trip
through `read_user`. -/
theorem c7_create_user_never_succeeds (db : DB) (u : UserCreate) :
    create_user db u =
      (Except.error (ApiError.typeError
        "values() got multiple values for keyword argument password"), db) := rfl

/-- C8 counterexample: order ids are reused across deletes. Creating two
orders assigns ids 1 and 2; after deleting order 2, the next insert is
assigned id 2 again, so the id returned by that insert is not strictly
greater than every id previously assigned in the table. -/
theorem c8_id_reuse_counterexample :
    (create_order (create_order DB.empty ⟨1, 1⟩ 10).2 ⟨1, 1⟩ 11).1.id = 2 ∧
    (create_order (delete_order
        (create_order (create_order DB.empty ⟨1, 1⟩ 10).2 ⟨1, 1⟩ 11).2 2).2
      ⟨1, 1⟩ 12).1.id = 2 := ⟨rfl, rfl⟩

/-- C8 amended: user inserts never complete (the handler fails before its
query runs), so the users table is unchanged by every `create_user` call;
each insert into the products or orders table returns an id strictly
greater than every id currently stored in that table (hence distinct from
all live rows), and duplicate-freeness of the live ids is preserved by
create, update and delete; strict growth over previously assigned but
since-deleted ids does not hold. -/
theorem c8_ids_unique_and_above_live_rows (db : DB) (u : UserCreate)
    (p : ProductCreate) (oc : OrderCreate) (now i : Nat)
    (hP : (db.products.map (fun r => r.id)).Nodup)
    (hO : (db.orders.map (fun r => r.id)).Nodup) :
    (create_user db u).2 = db ∧
    (∀ r ∈ db.products, r.id < (create_product db p).1.id) ∧
    ((create_product db p).2.products.map (fun r => r.id)).Nodup ∧
    (∀ r ∈ db.orders, r.id < (create_order db oc now).1.id) ∧
    ((create_order db oc now).2.orders.map (fun r => r.id)).Nodup ∧
    ((update_order db i oc).2.orders.map (fun r => r.id)).Nodup ∧
    ((delete_order db i).2.orders.map (fun r => r.id)).Nodup := by
  refine ⟨rfl, ?_, ?_, ?_, ?_, ?_, ?_⟩
  · intro r hr
    exact lt_nextId (List.mem_map_of_mem (fun x => x.id) hr)
  · have hpe : (create_product db p).2.products = db.products ++
        [(⟨nextId (db.products.map (fun r => r.id)),
          p.name, p.description, p.price⟩ : ProductRow)] := rfl
    rw [hpe, List.map_append]
    exact nodup_append_gt hP (fun x hx => lt_nextId hx)
  · intro r hr
    exact lt_nextId (List.mem_map_of_mem (fun x => x.id) hr)
  · have hoe : (create_order db oc now).2.orders = db.orders ++
        [(⟨nextId (db.orders.map (fun r => r.id)),
          oc.user_id, oc.product_id, now, none⟩ : OrderRow)] := rfl
    rw [hoe, List.map_append]
    exact nodup_append_gt hO (fun x hx => lt_nextId hx)
  · have hue : (update_order db i oc).2.orders.map (fun r => r.id) =
        db.orders.map (fun r => r.id) := by
      show (db.orders.map (applyOrderUpdate oc i)).map (fun r => r.id) =
        db.orders.map (fun r => r.id)
      rw [List.map_map]
      exact List.map_congr_left (fun x _ => applyOrderUpdate_id oc i x)
    rw [hue]
    exact hO
  · have hsub : List.Sublist ((delete_order db i).2.orders.map (fun r => r.id))
        (db.orders.map (fun r => r.id)) :=
      List.Sublist.map _ (List.filter_sublist _)
    exact hO.sublist hsub

/-- C8 witness: inserting a second order into a store with one live row
keeps the live order ids duplicate-free. -/
theorem c8_ids_unique_and_above_live_rows_witness :
    ((create_order (create_order DB.empty ⟨1, 1⟩ 3).2 ⟨4, 4⟩ 5).2.orders.map
      (fun r => r.id)).Nodup :=
  (c8_ids_unique_and_above_live_rows (create_order DB.empty ⟨1, 1⟩ 3).2
    ⟨"A", "B", "a@b.com", "x"⟩ ⟨"W", "d", 9⟩ ⟨4, 4⟩ 5 2
    (by decide) (by decide)).2.2.2.2.1

/-- C9: the UPDATE of `update_order` touches no other table and, within
the orders table, rewrites only the `user_id` and `product_id` columns:
every row keeps its id, `order_date` and `status`, and rows whose id does
not match are untouched entirely. -/
theorem c9_update_writes_only_references (db : DB) (i : Nat) (oc : OrderCreate) :
    (update_order db i oc).2.users = db.users ∧
    (update_order db i oc).2.products = db.products ∧
    (update_order db i oc).2.orders.map (fun r => (r.id, r.order_date, r.status)) =
      db.orders.map (fun r => (r.id, r.order_date, r.status)) ∧
    ∀ r ∈ db.orders, r.id ≠ i → r ∈ (update_order db i oc).2.orders := by
  refine ⟨rfl, rfl, ?_, ?_⟩
  · show (db.orders.map (applyOrderUpdate oc i)).map
        (fun r => (r.id, r.order_date, r.status)) =
      db.orders.map (fun r => (r.id, r.order_date, r.status))
    rw [List.map_map]
    apply List.map_congr_left
    intro x _
    unfold applyOrderUpdate
    by_cases hx : x.id = i <;> simp [hx]
  · intro r hr hne
    have hfix : applyOrderUpdate oc i r = r := by
      unfold applyOrderUpdate
      simp [hne]
    have hm := List.mem_map_of_mem (applyOrderUpdate oc i) hr
    rw [hfix] at hm
    exact hm

/-- C9 witness at a store holding one order. -/
theorem c9_update_writes_only_references_witness :
    (update_order (create_order DB.empty ⟨1, 1⟩ 3).2 9 ⟨5, 6⟩).2.orders.map
        (fun r => (r.id, r.order_date, r.status)) =
      (create_order DB.empty ⟨1, 1⟩ 3).2.orders.map
        (fun r => (r.id, r.order_date, r.status)) :=
  (c9_update_writes_only_references (create_order DB.empty ⟨1, 1⟩ 3).2 9 ⟨5, 6⟩).2.2.1

/-- Selecting by id commutes with the password-dropping projection: two
user tables that agree row by row on everything except `password` yield
rows with equal projections for every lookup. -/
theorem find?_byId_map_eq (i : Nat) (l1 l2 : List UserRow)
    (h : l1.map userRowToUser = l2.map userRowToUser) :
    (l1.find? (fun r => r.id == i)).map userRowToUser =
      (l2.find? (fun r => r.id == i)).map userRowToUser := by
  induction l1 generalizing l2 with
  | nil =>
    cases l2 with
    | nil => rfl
    | cons b t2 => simp at h
  | cons a t ih =>
    cases l2 with
    | nil => simp at h
    | cons b t2 =>
      rw [List.map_cons, List.map_cons] at h
      have hab : userRowToUser a = userRowToUser b := (List.cons.injEq .. ▸ h).1
      have ht : t.map userRowToUser = t2.map userRowToUser := (List.cons.injEq .. ▸ h).2
      have hid : a.id = b.id := congrArg User.id hab
      by_cases hc : (a.id == i) = true
      · have hcb : (b.id == i) = true := by rw [← hid]; exact hc
        rw [List.find?_cons_of_pos (p := fun r : UserRow => r.id == i) t hc,
          List.find?_cons_of_pos (p := fun r : UserRow => r.id == i) t2 hcb]
        simp [hab]
      · have hcb : ¬((b.id == i) = true) := by rw [← hid]; exact hc
        rw [List.find?_cons_of_neg (p := fun r : UserRow => r.id == i) t hc,
          List.find?_cons_of_neg (p := fun r : UserRow => r.id == i) t2 hcb]
        exact ih t2 ht

/-- C10: the `read_user` response carries no password information: any two
stores whose user tables agree on id, `first_name`, `last_name` and
`email` of every row (but may differ arbitrarily in passwords) produce
identical responses for every id. -/
theorem c10_password_noninterference (dba dbb : DB) (i : Nat)
    (h : dba.users.map userRowToUser = dbb.users.map userRowToUser) :
    read_user dba i = read_user dbb i := by
  have hmap := find?_byId_map_eq i dba.users dbb.users h
  unfold read_user
  rcases h1 : dba.users.find? (fun r => r.id == i) with _ | r1 <;>
      rcases h2 : dbb.users.find? (fun r => r.id == i) with _ | r2 <;>
      rw [h1, h2] at hmap ⊢
  all_goals simp_all

/-- C10 witness: two stores identical except for the stored password give
the same response. -/
theorem c10_password_noninterference_witness :
    read_user ⟨[⟨1, "A", "B", "a@b.com", "secret1"⟩], [], []⟩ 1 =
      read_user ⟨[⟨1, "A", "B", "a@b.com", "secret2"⟩], [], []⟩ 1 :=
  c10_password_noninterference _ _ 1 rfl

end Shop
